import Mathlib

/-!
Shallow embedding of src/ebltable/ebl_from_model.py (class EBL) and proofs
about it.

Modelling conventions:
* Python/numpy floats are modelled as elements of a linear ordered field
  (instantiated with the real numbers in the claim theorems; generic
  definitions keep everything computable so that concrete witnesses can be
  evaluated).
* numpy arrays are modelled as Lists, 2D arrays as Lists of row Lists.
* External library functions (scipy RectBivariateSpline fitting/evaluation,
  scipy.integrate.simps row quadrature, np.loadtxt) are taken as abstract
  function parameters; np.sort / np.argsort / fancy index assignment are
  modelled concretely below.
* np.log10 and 10.0 ** x are parameters log10 / pow10 of the generic
  definitions, instantiated with Real.logb 10 and fun t => (10:ℝ) ^ t.
-/

namespace Ebltable

section Core

variable {α : Type} [LinearOrderedField α] {β : Type}

/-- Position of the first occurrence of a natural number in a list
(0 if absent past the end).  Used to model where numpy fancy assignment
with a permutation index array writes each value. -/
def idxIn (a : ℕ) : List ℕ → ℕ
  | [] => 0
  | b :: bs => if b = a then 0 else idxIn a bs + 1

/-- numpy fancy assignment `base[p] = vals` (`tt[args_z,:] = A` /
`result[:,args_l] = tt` act like this row- resp. column-wise): position i of
the result holds vals[k] for the first k with p[k] = i, and base[i] when
i does not occur in p.  For the permutation index arrays produced by
np.argsort this is exactly numpy's semantics. -/
def npAssign (base : List β) (p : List ℕ) (vals : List β) : List β :=
  ((List.range base.length).zip base).map
    (fun ib => if ib.1 ∈ p then vals.getD (idxIn ib.1 p) ib.2 else ib.2)

/-- The comparison on indices underlying np.argsort: order by value,
ties broken by index (stable argsort). -/
def argLe (v : List α) (a b : ℕ) : Bool :=
  decide (v.getD a 0 < v.getD b 0) || (decide (v.getD a 0 = v.getD b 0) && decide (a ≤ b))

/-- np.argsort: the permutation of 0,...,len(v)-1 listing indices in
nondecreasing order of value. -/
def npArgsort (v : List α) : List ℕ :=
  (List.range v.length).mergeSort (argLe v)

/-- np.sort: the values of v in nondecreasing order. -/
def npSort (v : List α) : List α :=
  v.mergeSort (fun a b => decide (a ≤ b))

/-- ebl_array (src lines 318-328), after input promotion: the sorted-axes
spline evaluation followed by the two scatter steps and exponentiation.
`spl` is the fitted RectBivariateSpline, as the function
(log10 wavelength, redshift) ↦ log10 intensity; the code evaluates it on the
sorted axes (`self.__eblSpline(np.log10(np.sort(lmu)), np.sort(z)).T`),
scatters rows with `tt[args_z,:] = ...`, columns with
`result[:,args_l] = tt`, and returns `np.power(10., result)`. -/
def ebl_core (log10 pow10 : α → α) (spl : α → α → α) (z lmu : List α) :
    List (List α) :=
  let args_z := npArgsort z
  let args_l := npArgsort lmu
  let sz := npSort z
  let sl := npSort lmu
  let A := sz.map (fun zv => sl.map (fun lv => spl (log10 lv) zv))
  let zerosRow : List α := List.replicate lmu.length 0
  let zeros : List (List α) := List.replicate z.length zerosRow
  let tt := npAssign zeros args_z A
  let result := tt.map (fun row => npAssign zerosRow args_l row)
  result.map (fun row => row.map pow10)

theorem idxIn_lt_length {a : ℕ} {l : List ℕ} (h : a ∈ l) :
    idxIn a l < l.length := by
  induction l with
  | nil => cases h
  | cons b bs ih =>
      by_cases hb : b = a
      · simp [idxIn, hb]
      · rcases List.mem_cons.mp h with h1 | h1
        · exact absurd h1.symm hb
        · simpa [idxIn, hb] using ih h1

theorem getD_idxIn {a : ℕ} {l : List ℕ} (h : a ∈ l) :
    l.getD (idxIn a l) 0 = a := by
  induction l with
  | nil => cases h
  | cons b bs ih =>
      by_cases hb : b = a
      · simp [idxIn, hb]
      · rcases List.mem_cons.mp h with h1 | h1
        · exact absurd h1.symm hb
        · simpa [idxIn, hb] using ih h1

theorem npAssign_length (base : List β) (p : List ℕ) (vals : List β) :
    (npAssign base p vals).length = base.length := by
  simp [npAssign]

theorem npAssign_getD (base : List β) (p : List ℕ) (vals : List β)
    {i : ℕ} (hib : i < base.length) (d : β) :
    (npAssign base p vals).getD i d
      = if i ∈ p then vals.getD (idxIn i p) (base[i]) else base[i] := by
  rw [List.getD_eq_getElem _ _ (by simpa [npAssign_length] using hib)]
  simp [npAssign, List.getElem_map, List.getElem_zip, List.getElem_range,
    List.getD, List.getElem?_eq_getElem hib]

theorem npArgsort_perm (v : List α) :
    (npArgsort v).Perm (List.range v.length) :=
  List.mergeSort_perm (List.range v.length) (argLe v)

theorem npArgsort_length (v : List α) : (npArgsort v).length = v.length := by
  simp [npArgsort, List.length_mergeSort]

theorem mem_npArgsort (v : List α) {a : ℕ} :
    a ∈ npArgsort v ↔ a < v.length := by
  rw [(npArgsort_perm v).mem_iff, List.mem_range]

theorem argLe_iff (v : List α) (a b : ℕ) :
    argLe v a b = true ↔
      v.getD a 0 < v.getD b 0 ∨ (v.getD a 0 = v.getD b 0 ∧ a ≤ b) := by
  simp [argLe]

theorem argLe_trans (v : List α) (a b c : ℕ)
    (hab : argLe v a b = true) (hbc : argLe v b c = true) :
    argLe v a c = true := by
  rw [argLe_iff] at hab hbc ⊢
  rcases hab with h1 | ⟨h1, h1i⟩ <;> rcases hbc with h2 | ⟨h2, h2i⟩
  · exact Or.inl (h1.trans h2)
  · exact Or.inl (h2 ▸ h1)
  · exact Or.inl (h1 ▸ h2)
  · exact Or.inr ⟨h1.trans h2, h1i.trans h2i⟩

theorem argLe_total (v : List α) (a b : ℕ) :
    (argLe v a b || argLe v b a) = true := by
  rw [Bool.or_eq_true, argLe_iff, argLe_iff]
  rcases lt_trichotomy (v.getD a 0) (v.getD b 0) with h | h | h
  · exact Or.inl (Or.inl h)
  · rcases Nat.le_total a b with hab | hab
    · exact Or.inl (Or.inr ⟨h, hab⟩)
    · exact Or.inr (Or.inr ⟨h.symm, hab⟩)
  · exact Or.inr (Or.inl h)

theorem argLe_le (v : List α) (a b : ℕ) (h : argLe v a b = true) :
    v.getD a 0 ≤ v.getD b 0 := by
  rw [argLe_iff] at h
  rcases h with h | ⟨h, _⟩
  · exact le_of_lt h
  · exact le_of_eq h

theorem map_range_getD (v : List α) :
    (List.range v.length).map (fun a => v.getD a 0) = v := by
  apply List.ext_getElem
  · simp
  · intro i h1 h2
    simp only [List.getElem_map, List.getElem_range]
    exact List.getD_eq_getElem v 0 h2

/-- np.sort(v) coincides with v[np.argsort(v)] : the sorted values are the
values at the argsorted positions. -/
theorem npSort_eq_map_npArgsort (v : List α) :
    npSort v = (npArgsort v).map (fun a => v.getD a 0) := by
  have hperm : (npSort v).Perm v := List.mergeSort_perm v _
  have hperm2 : ((npArgsort v).map (fun a => v.getD a 0)).Perm v := by
    have h := (npArgsort_perm v).map (fun a => v.getD a 0)
    rwa [map_range_getD] at h
  have hsort1 : List.Sorted (· ≤ ·) (npSort v) := by
    have h := @List.sorted_mergeSort α (fun a b : α => decide (a ≤ b))
      (fun a b c hab hbc => by
        simp only [decide_eq_true_iff] at hab hbc ⊢; exact hab.trans hbc)
      (fun a b => by
        rcases le_total a b with h | h <;> simp [h]) v
    simpa [List.Sorted, npSort] using h
  have hsort2 : List.Sorted (· ≤ ·) ((npArgsort v).map (fun a => v.getD a 0)) := by
    have h := @List.sorted_mergeSort ℕ (argLe v)
      (argLe_trans v) (argLe_total v) (List.range v.length)
    exact List.Pairwise.map _ (fun a b hab => argLe_le v a b hab) h
  exact List.eq_of_perm_of_sorted (hperm.trans hperm2.symm) hsort1 hsort2

theorem npSort_length (v : List α) : (npSort v).length = v.length := by
  simp [npSort, List.length_mergeSort]

theorem getD_map {γ : Type} (f : β → γ) (l : List β) {k : ℕ}
    (hk : k < l.length) (d : γ) (d2 : β) :
    (l.map f).getD k d = f (l.getD k d2) := by
  rw [List.getD_eq_getElem _ _ (by simpa using hk), List.getElem_map,
      List.getD_eq_getElem _ _ hk]

theorem getD_map_map {γ δ ε : Type} (f : γ → δ) (g : δ → ε) (xs : List γ)
    {k : ℕ} (hk : k < xs.length) (d : ε) (d0 : γ) :
    ((xs.map f).map g).getD k d = g (f (xs.getD k d0)) := by
  rw [getD_map g (xs.map f) (by simpa using hk) d (f (xs.getD k d0)),
      getD_map f xs hk _ d0]

theorem getD_replicate {γ : Type} (a d : γ) {n k : ℕ} (hk : k < n) :
    (List.replicate n a).getD k d = a := by
  rw [List.getD_eq_getElem _ _ (by simpa using hk), List.getElem_replicate]

theorem ebl_core_length (log10 pow10 : α → α) (spl : α → α → α)
    (z lmu : List α) :
    (ebl_core log10 pow10 spl z lmu).length = z.length := by
  simp [ebl_core, npAssign_length]

theorem ebl_core_row_length (log10 pow10 : α → α) (spl : α → α → α)
    (z lmu : List α) {i : ℕ} (hi : i < z.length) :
    ((ebl_core log10 pow10 spl z lmu).getD i []).length = lmu.length := by
  have hlen : i < (ebl_core log10 pow10 spl z lmu).length := by
    rw [ebl_core_length]; exact hi
  rw [List.getD_eq_getElem _ _ hlen]
  simp [ebl_core, List.getElem_map, npAssign_length]

/-- The sort / scatter / unsort pipeline of ebl_array computes, at position
(i, j), exactly 10 raised to the spline value at (log10 lmu[j], z[i]) - the
ordering steps only rearrange, never change, the evaluated values. -/
theorem ebl_core_entry (log10 pow10 : α → α) (spl : α → α → α)
    (z lmu : List α) {i j : ℕ} (hi : i < z.length) (hj : j < lmu.length) :
    ((ebl_core log10 pow10 spl z lmu).getD i []).getD j 0
      = pow10 (spl (log10 (lmu.getD j 0)) (z.getD i 0)) := by
  have hip : i ∈ npArgsort z := (mem_npArgsort z).mpr hi
  have hjq : j ∈ npArgsort lmu := (mem_npArgsort lmu).mpr hj
  have hki : idxIn i (npArgsort z) < z.length := by
    have h := idxIn_lt_length hip
    rwa [npArgsort_length] at h
  have hkj : idxIn j (npArgsort lmu) < lmu.length := by
    have h := idxIn_lt_length hjq
    rwa [npArgsort_length] at h
  have hszk : (npSort z).getD (idxIn i (npArgsort z)) 0 = z.getD i 0 := by
    rw [npSort_eq_map_npArgsort,
        getD_map (fun a => z.getD a 0) _ (by rwa [npArgsort_length]) 0 0,
        getD_idxIn hip]
  have hslk : (npSort lmu).getD (idxIn j (npArgsort lmu)) 0 = lmu.getD j 0 := by
    rw [npSort_eq_map_npArgsort,
        getD_map (fun a => lmu.getD a 0) _ (by rwa [npArgsort_length]) 0 0,
        getD_idxIn hjq]
  have httlen : i < (npAssign
      (List.replicate z.length (List.replicate lmu.length (0:α)))
      (npArgsort z)
      ((npSort z).map (fun zv => (npSort lmu).map (fun lv => spl (log10 lv) zv)))).length := by
    rw [npAssign_length, List.length_replicate]; exact hi
  have hrowEq : (npAssign
      (List.replicate z.length (List.replicate lmu.length (0:α)))
      (npArgsort z)
      ((npSort z).map (fun zv => (npSort lmu).map (fun lv => spl (log10 lv) zv)))).getD i []
      = (npSort lmu).map
          (fun lv => spl (log10 lv) ((npSort z).getD (idxIn i (npArgsort z)) 0)) := by
    rw [npAssign_getD _ _ _ (by rw [List.length_replicate]; exact hi) [],
        if_pos hip,
        getD_map (fun zv => (npSort lmu).map (fun lv => spl (log10 lv) zv))
          (npSort z) (by rw [npSort_length]; exact hki) _ 0]
  show ((((npAssign
      (List.replicate z.length (List.replicate lmu.length (0:α)))
      (npArgsort z)
      ((npSort z).map (fun zv => (npSort lmu).map (fun lv => spl (log10 lv) zv)))).map
        (fun row => npAssign (List.replicate lmu.length (0:α)) (npArgsort lmu) row)).map
        (fun row => row.map pow10)).getD i []).getD j 0
      = pow10 (spl (log10 (lmu.getD j 0)) (z.getD i 0))
  rw [getD_map_map
        (fun row => npAssign (List.replicate lmu.length (0:α)) (npArgsort lmu) row)
        (fun row => row.map pow10)
        (npAssign
          (List.replicate z.length (List.replicate lmu.length (0:α)))
          (npArgsort z)
          ((npSort z).map (fun zv => (npSort lmu).map (fun lv => spl (log10 lv) zv))))
        httlen [] [],
      hrowEq,
      getD_map pow10
        (npAssign (List.replicate lmu.length (0:α)) (npArgsort lmu)
          ((npSort lmu).map
            (fun lv => spl (log10 lv) ((npSort z).getD (idxIn i (npArgsort z)) 0))))
        (by rw [npAssign_length, List.length_replicate]; exact hj) 0 0,
      npAssign_getD _ _ _ (by rw [List.length_replicate]; exact hj) 0,
      if_pos hjq,
      getD_map (fun lv => spl (log10 lv) ((npSort z).getD (idxIn i (npArgsort z)) 0))
        (npSort lmu) (by rw [npSort_length]; exact hkj) _ 0,
      hslk, hszk]

end Core

section Layers

variable {α : Type} [LinearOrderedField α]

/-- A Python RuntimeWarning emission (the message text, a formatted float,
is not modelled). -/
inductive PyWarning
  | runtimeWarning
deriving DecidableEq

/-- A Python exception relevant here: attribute lookup failure. -/
inductive PyErr
  | attributeError
deriving DecidableEq

/-- Lines 314-316 of ebl_array: warn (once) iff any requested z lies
strictly below the first entry of the tabulated redshift axis. -/
def ebl_array_warns (zTab z : List α) : List PyWarning :=
  if z.any (fun x => decide (x < zTab.getD 0 0)) then [PyWarning.runtimeWarning]
  else []

/-- ebl_array on already-promoted array inputs: the warning check followed
by the sort/scatter spline query. -/
def ebl_array_full (log10 pow10 : α → α) (spl : α → α → α)
    (zTab z lmu : List α) : List PyWarning × List (List α) :=
  (ebl_array_warns zTab z, ebl_core log10 pow10 spl z lmu)

/-- A Python argument that is a scalar, a list, or a numpy array of reals. -/
inductive PyObj (α : Type)
  | float (x : α)
  | list (xs : List α)
  | arr (xs : List α)

/-- Lines 305-308: `if np.isscalar(lmu): lmu = np.array([lmu])`
`elif type(lmu) == list: ETeV = np.array(lmu)` - the converted array is
assigned to the unused local ETeV, so a list input stays a list. -/
def promote_lmu : PyObj α → PyObj α
  | .float x => .arr [x]
  | .list xs => .list xs
  | .arr xs => .arr xs

/-- Lines 309-312: the z argument is promoted correctly (scalar wrapped,
list converted), always yielding an array. -/
def promote_z : PyObj α → List α
  | .float x => [x]
  | .list xs => xs
  | .arr xs => xs

/-- ebl_array with Python-level argument handling: after promotion the code
reads lmu.shape[0] (line 318), which raises AttributeError when lmu is
still a Python list; otherwise the array pipeline runs. -/
def ebl_array_py (log10 pow10 : α → α) (spl : α → α → α) (zTab : List α)
    (zin lin : PyObj α) : List PyWarning × Except PyErr (List (List α)) :=
  let lmu := promote_lmu lin
  let zs := promote_z zin
  (ebl_array_warns zTab zs,
    match lmu with
    | .arr ls => Except.ok (ebl_core log10 pow10 spl zs ls)
    | _ => Except.error PyErr.attributeError)

/-- np.linspace(a, b, n): n points from a to b inclusive. -/
def linspace (a b : α) (n : ℕ) : List α :=
  (List.range n).map (fun k : ℕ => a + (b - a) * (k : α) / ((n : α) - 1))

theorem linspace_length (a b : α) (n : ℕ) : (linspace a b n).length = n := by
  simp [linspace]

theorem range_getD (n k : ℕ) (hk : k < n) : (List.range n).getD k 0 = k := by
  rw [List.getD_eq_getElem _ _ (by simpa using hk), List.getElem_range]

theorem linspace_getD (a b : α) (n k : ℕ) (hk : k < n) (d : α) :
    (linspace a b n).getD k d = a + (b - a) * (k : α) / ((n : α) - 1) := by
  rw [linspace, getD_map (fun m : ℕ => a + (b - a) * (m : α) / ((n : α) - 1))
        (List.range n) (by simpa using hk) d 0, range_getD n k hk]

/-- Line 394 of ebl_int: `logl = np.linspace(np.log10(lmin), np.log10(lmax), steps)`. -/
def ebl_int_logl (log10 : α → α) (lmin lmax : α) (steps : ℕ) : List α :=
  linspace (log10 lmin) (log10 lmax) steps

/-- Line 395 of ebl_int: `lnl = np.log(np.linspace(lmin, lmax, steps))` -
the natural log of LINEARLY spaced wavelengths. -/
def ebl_int_lnl (ln : α → α) (lmin lmax : α) (steps : ℕ) : List α :=
  (linspace lmin lmax steps).map ln

/-- The wavelengths at which line 396 samples the intensity:
`10.**logl`, i.e. log-uniformly spaced points. -/
def ebl_int_samples (log10 pow10 : α → α) (lmin lmax : α) (steps : ℕ) : List α :=
  (ebl_int_logl log10 lmin lmax steps).map pow10

/-- ebl_int (lines 394-398).  S is scipy.integrate.simps applied to one row
of sample values together with the abscissa array (external library code,
kept abstract); scipy integrates along the last axis, producing one value
per row of the 2D integrand array, so the Python return value is a
one-element ndarray, modelled as a List. -/
def ebl_int (S : List α → List α → α) (log10 pow10 ln : α → α)
    (spl : α → α → α) (z lmin lmax : α) (steps : ℕ) : List α :=
  ((ebl_core log10 pow10 spl [z]
      (ebl_int_samples log10 pow10 lmin lmax steps)).map
    (fun row => row.map (fun v => ln 10 * v))).map
    (fun row => S row (ebl_int_lnl ln lmin lmax steps))

/-- astropy.constants c.value (m/s), SI exact. -/
def const_c : α := 299792458

/-- astropy.constants h.value (J s), SI exact: 6.62607015e-34. -/
def const_h : α := 662607015 / 10 ^ 42

/-- astropy.constants e.value (C), SI exact: 1.602176634e-19;
also the eV-to-joule conversion factor. -/
def const_e : α := 1602176634 / 10 ^ 28

/-- n_array (lines 350-368) on promoted array inputs: energies (eV) are
turned into wavelengths in micron (`(c.h*c.c/(EeV*u.eV).to(u.J)).to(u.um)`,
i.e. h*c/(E*e) * 1e6), into joules (E*e), the intensity query is evaluated
at those wavelengths, and the grid is scaled column-wise by
4*pi/c/e_J^2 * 1e-9 and then by e * 1e-6. -/
def n_array (log10 pow10 : α → α) (pi : α) (spl : α → α → α)
    (z EeV : List α) : List (List α) :=
  let l := EeV.map (fun E => const_h * const_c / (E * const_e) * 10 ^ 6)
  let e_J := EeV.map (fun E => E * const_e)
  let n0 := ebl_core log10 pow10 spl z l
  let n1 := n0.map (fun row => (row.zip e_J).map
    (fun pr => 4 * pi / const_c / pr.2 ^ 2 * pr.1 * (1 / 10 ^ 9)))
  n1.map (fun row => row.map (fun v => v * const_e * (1 / 10 ^ 6)))

end Layers

section ObjectModel

variable {α : Type} [LinearOrderedField α]

/-- A value stored in an EBL instance attribute: a 1D array, a 2D array,
or a fitted spline (a function log10-wavelength → redshift → log10-value). -/
inductive PyAttr (α : Type)
  | vec (xs : List α)
  | mat (xs : List (List α))
  | spline (f : α → α → α)

/-- The instance __dict__ of a Python object: attribute names with values.
Assignment prepends; lookup takes the first (most recent) binding. -/
def PyDict (α : Type) : Type := List (String × PyAttr α)

def pyGet (s : PyDict α) (name : String) : Option (PyAttr α) :=
  (List.find? (fun kv => kv.1 == name) s).map (fun kv => kv.2)

def pySet (s : PyDict α) (name : String) (v : PyAttr α) : PyDict α :=
  (name, v) :: s

/-- EBL.__init__ (lines 55-58): stores _z, _loglmu = log10(lmu),
_nuInu = log10(nuInu), and the private _EBL__eblSpline fitted from the
three stored arrays.  `fit` abstracts scipy RectBivariateSpline(kx=2,ky=2). -/
def EBL_init (log10 : α → α)
    (fit : List α → List α → List (List α) → α → α → α)
    (z lmu : List α) (nuInu : List (List α)) : PyDict α :=
  let s1 := pySet [] "_z" (PyAttr.vec z)
  let s2 := pySet s1 "_loglmu" (PyAttr.vec (lmu.map log10))
  let s3 := pySet s2 "_nuInu" (PyAttr.mat (nuInu.map (fun r => r.map log10)))
  pySet s3 "_EBL__eblSpline"
    (PyAttr.spline (fit (lmu.map log10) z (nuInu.map (fun r => r.map log10))))

/-- The refit expression shared by all three setters (lines 68, 78, 88):
`RBSpline(self._loglnu, self._z, self._nuInu, ...)`.  It reads the
attribute _loglnu, which __init__ never creates (it stores _loglmu), so on
any state produced by the constructor the lookup fails and the assignment
raises AttributeError with the spline left untouched. -/
def spline_refit (fit : List α → List α → List (List α) → α → α → α)
    (s : PyDict α) : PyDict α × Except PyErr Unit :=
  match pyGet s "_loglnu", pyGet s "_z", pyGet s "_nuInu" with
  | some (.vec a), some (.vec b), some (.mat c) =>
      (pySet s "_EBL__eblSpline" (PyAttr.spline (fit a b c)), Except.ok ())
  | _, _, _ => (s, Except.error PyErr.attributeError)

/-- z.setter (lines 65-69): stores the new axis, then attempts the refit. -/
def z_setter (fit : List α → List α → List (List α) → α → α → α)
    (s : PyDict α) (znew : List α) : PyDict α × Except PyErr Unit :=
  spline_refit fit (pySet s "_z" (PyAttr.vec znew))

/-- loglmu.setter (lines 75-79): stores log10 of the new wavelengths, then
attempts the refit. -/
def loglmu_setter (log10 : α → α)
    (fit : List α → List α → List (List α) → α → α → α)
    (s : PyDict α) (lmunew : List α) : PyDict α × Except PyErr Unit :=
  spline_refit fit (pySet s "_loglmu" (PyAttr.vec (lmunew.map log10)))

/-- nuInu.setter (lines 85-89): stores log10 of the new grid, then attempts
the refit. -/
def nuInu_setter (log10 : α → α)
    (fit : List α → List α → List (List α) → α → α → α)
    (s : PyDict α) (nunew : List (List α)) : PyDict α × Except PyErr Unit :=
  spline_refit fit (pySet s "_nuInu" (PyAttr.mat (nunew.map (fun r => r.map log10))))

/-- z property getter (lines 61-63). -/
def z_prop (s : PyDict α) : Option (PyAttr α) := pyGet s "_z"

/-- loglmu property getter (lines 71-73). -/
def loglmu_prop (s : PyDict α) : Option (PyAttr α) := pyGet s "_loglmu"

/-- nuInu property getter (lines 81-83). -/
def nuInu_prop (s : PyDict α) : Option (PyAttr α) := pyGet s "_nuInu"

end ObjectModel

section Loader

variable {α : Type} [LinearOrderedField α]

/-- Does the second character list begin with the first? -/
def chrsBeginWith : List Char → List Char → Bool
  | [], _ => true
  | _ :: _, [] => false
  | a :: as, b :: bs => a == b && chrsBeginWith as bs

/-- Does the second character list contain the first as a contiguous run? -/
def chrsHaveSub (needle : List Char) : List Char → Bool
  | [] => chrsBeginWith needle []
  | c :: cs => chrsBeginWith needle (c :: cs) || chrsHaveSub needle cs

/-- Python str.find(needle) >= 0 : the needle occurs in the string. -/
def strFindGE0 (hay needle : String) : Bool := chrsHaveSub needle.data hay.data

/-- The filename dispatch of readmodel (lines 122-150): each recognized
model name maps to its data file (paths relative to the package data
directory); anything else raises ValueError("Unknown EBL model chosen!"). -/
def readmodel_filename (model : String) : Except String String :=
  if model = "kneiske" then Except.ok "ebl_nuFnu_tanja.dat"
  else if model = "franceschini" then Except.ok "ebl_franceschini.dat"
  else if model = "dominguez" then Except.ok "ebl_dominguez11.out"
  else if model = "dominguez-upper" then
    Except.ok "ebl_upper_uncertainties_dominguez11.out"
  else if model = "dominguez-lower" then
    Except.ok "ebl_lower_uncertainties_dominguez11.out"
  else if model = "inoue" then Except.ok "EBL_z_0_baseline.dat"
  else if model = "inoue-low-pop3" then Except.ok "EBL_z_0_low_pop3.dat"
  else if model = "inoue-up-pop3" then Except.ok "EBL_z_0_up_pop3.dat"
  else if model = "gilmore" then Except.ok "eblflux_fiducial.dat"
  else if model = "gilmore-fixed" then Except.ok "eblflux_fixed.dat"
  else if model = "cuba" then Except.ok "CUBA_UVB.dat"
  else if model = "finke" then Except.ok "ebl_modelC_Finke.txt"
  else Except.error "Unknown EBL model chosen!"

/-- readmodel (lines 91-196).  `load` abstracts np.loadtxt on the resolved
file (assumed well formed, as the shipped tables are); remaining row/column
accesses use total getD/drop operations.  After loading, any model whose
name contains "inoue" raises ValueError (line 159); gilmore and cuba
tables get their unit conversion and zero-replacement; the generic branch
(with finke reversal) is passed through; the surviving arrays are handed
to the EBL constructor. -/
def readmodel (log10 : α → α)
    (fit : List α → List α → List (List α) → α → α → α)
    (load : String → List (List α)) (model : String) :
    Except String (PyDict α) := do
  let fname ← readmodel_filename model
  let data := load fname
  if strFindGE0 model "inoue" then
    Except.error "Inoue models not correctly implemented at the moment, choose another model"
  else if strFindGE0 model "gilmore" then
    let z := (data.getD 0 []).drop 1
    let ang := (data.drop 1).map (fun r => r.getD 0 0)
    let lmu := ang.map (fun v => v * (1 / 10 ^ 4))
    let nu0 := (data.drop 1).map (fun r => r.drop 1)
    let nu1 := nu0.map (fun r => r.map (fun v => if v = 0 then 1 / 10 ^ 20 else v))
    let nu2 := (nu1.zip ang).map
      (fun pr => pr.1.map (fun v => v * pr.2 * 10 ^ 4 * (1 / 10 ^ 7) * 10 ^ 9))
    Except.ok (EBL_init log10 fit z lmu nu2)
  else if model = "cuba" then
    let z := ((data.getD 0 []).drop 1).dropLast
    let lmu1 := ((data.drop 1).map (fun r => r.getD 0 0)).map
      (fun v => v * (1 / 10 ^ 4))
    let nu0 := (data.drop 1).map (fun r => (r.drop 1).dropLast)
    let nu1 := nu0.map (fun r => r.map (fun v => if v = 0 then 1 / 10 ^ 20 else v))
    let nu2 := (nu1.zip lmu1).map
      (fun pr => pr.1.map (fun v => v * const_c / (pr.2 * (1 / 10 ^ 6))))
    let nu3 := nu2.map (fun r => r.map (fun v => v * 10 ^ 6))
    let dupIdx := (List.range (lmu1.length - 1)).filter
      (fun k => decide (lmu1.getD (k + 1) 0 - lmu1.getD k 0 = (0 : α)))
    let lmu2 := dupIdx.foldl
      (fun cur k => cur.set (k + 1) ((cur.getD (k + 2) 0 + cur.getD k 0) / 2)) lmu1
    Except.ok (EBL_init log10 fit z lmu2 nu3)
  else
    let z := (data.getD 0 []).drop 1
    let lmu := (data.drop 1).map (fun r => r.getD 0 0)
    let nu := (data.drop 1).map (fun r => r.drop 1)
    if model = "finke" then
      Except.ok (EBL_init log10 fit z
        (lmu.reverse.map (fun v => v * (1 / 10 ^ 4))) nu.reverse)
    else
      Except.ok (EBL_init log10 fit z lmu nu)

end Loader

section Claims

theorem getD_ofFn {γ : Type} {n : ℕ} (f : Fin n → γ) (k : Fin n) (d : γ) :
    (List.ofFn f).getD (k : ℕ) d = f k := by
  rw [List.getD_eq_getElem _ _ (by simp [k.isLt]), List.getElem_ofFn]

theorem getD_zip {γ δ : Type} (as : List γ) (bs : List δ) {k : ℕ}
    (h1 : k < as.length) (h2 : k < bs.length) (d1 : γ) (d2 : δ) :
    (as.zip bs).getD k (d1, d2) = (as.getD k d1, bs.getD k d2) := by
  rw [List.getD_eq_getElem _ _ (by rw [List.length_zip]; exact lt_min h1 h2),
      List.getElem_zip, List.getD_eq_getElem _ _ h1, List.getD_eq_getElem _ _ h2]

/-- C1: Permutation invariance of the intensity query.  For a fitted spline
spl, permutations q of the redshift list and p of the wavelength list,
the grid returned by ebl_array on the permuted inputs, read at (i, j),
equals the grid returned on the original inputs read at (q i, p j): the
sort/scatter steps only reorder entries, never change their values. -/
theorem claim1_permutation_invariance (spl : ℝ → ℝ → ℝ) (z lmu : List ℝ)
    (q : Equiv.Perm (Fin z.length)) (p : Equiv.Perm (Fin lmu.length))
    (i : Fin z.length) (j : Fin lmu.length) :
    ((ebl_core (Real.logb 10) (fun t => (10:ℝ) ^ t) spl
        (List.ofFn (fun a => z.getD ((q a : Fin z.length) : ℕ) 0))
        (List.ofFn (fun b => lmu.getD ((p b : Fin lmu.length) : ℕ) 0))).getD (i : ℕ) []).getD (j : ℕ) 0
      = ((ebl_core (Real.logb 10) (fun t => (10:ℝ) ^ t) spl z lmu).getD
          ((q i : Fin z.length) : ℕ) []).getD ((p j : Fin lmu.length) : ℕ) 0 := by
  have hiL : (i : ℕ) < (List.ofFn
      (fun a => z.getD ((q a : Fin z.length) : ℕ) 0)).length := by
    simp
  have hjL : (j : ℕ) < (List.ofFn
      (fun b => lmu.getD ((p b : Fin lmu.length) : ℕ) 0)).length := by
    simp
  rw [ebl_core_entry _ _ _ _ _ hiL hjL,
      ebl_core_entry _ _ _ _ _ (q i).isLt (p j).isLt,
      getD_ofFn _ i 0, getD_ofFn _ j 0]

/-- C6: ebl_array on an m-element redshift list and n-element wavelength
list yields an m x n grid of strictly positive entries (each entry is 10
raised to an interpolated value). -/
theorem claim6_shape_positivity (spl : ℝ → ℝ → ℝ) (z lmu : List ℝ) :
    (ebl_core (Real.logb 10) (fun t => (10:ℝ) ^ t) spl z lmu).length = z.length
    ∧ ∀ i : ℕ, i < z.length →
        ((ebl_core (Real.logb 10) (fun t => (10:ℝ) ^ t) spl z lmu).getD i []).length
          = lmu.length
        ∧ ∀ j : ℕ, j < lmu.length →
            0 < ((ebl_core (Real.logb 10) (fun t => (10:ℝ) ^ t) spl z lmu).getD
                  i []).getD j 0 := by
  refine ⟨ebl_core_length _ _ _ _ _,
    fun i hi => ⟨ebl_core_row_length _ _ _ _ _ hi, fun j hj => ?_⟩⟩
  rw [ebl_core_entry _ _ _ _ _ hi hj]
  exact Real.rpow_pos_of_pos (by norm_num) _

theorem claim6_witness :
    0 < ((ebl_core (Real.logb 10) (fun t => (10:ℝ) ^ t) (fun _ _ => 0)
          [0] [1]).getD 0 []).getD 0 0
    ∧ (ebl_core (Real.logb 10) (fun t => (10:ℝ) ^ t) (fun _ _ => 0)
          [0] [1]).length = 1 :=
  ⟨((claim6_shape_positivity (fun _ _ => 0) [0] [1]).2 0 (by decide)).2 0 (by decide),
   (claim6_shape_positivity (fun _ _ => 0) [0] [1]).1⟩

/-- C4: ebl_array emits exactly one RuntimeWarning when some requested
redshift lies strictly below the minimum tabulated redshift (the first
entry of the sorted table) and none otherwise; it never raises for this
reason, and the returned grid is the unclamped spline evaluation at the
requested redshifts themselves. -/
theorem claim4_below_domain_warning (spl : ℝ → ℝ → ℝ) (zTab z lmu : List ℝ)
    (hne : zTab ≠ []) (hsort : List.Sorted (· ≤ ·) zTab) :
    ((ebl_array_full (Real.logb 10) (fun t => (10:ℝ) ^ t) spl zTab z lmu).1
        = [PyWarning.runtimeWarning] ↔ ∃ x ∈ z, x < zTab.getD 0 0)
    ∧ ((ebl_array_full (Real.logb 10) (fun t => (10:ℝ) ^ t) spl zTab z lmu).1
        = [] ↔ ¬ ∃ x ∈ z, x < zTab.getD 0 0)
    ∧ (∀ y ∈ zTab, zTab.getD 0 0 ≤ y)
    ∧ (∀ i j : ℕ, i < z.length → j < lmu.length →
        (((ebl_array_full (Real.logb 10) (fun t => (10:ℝ) ^ t) spl zTab z lmu).2.getD
            i []).getD j 0
          = (10:ℝ) ^ spl (Real.logb 10 (lmu.getD j 0)) (z.getD i 0))) := by
  have hany : (z.any (fun x => decide (x < zTab.getD 0 0)) = true)
      ↔ ∃ x ∈ z, x < zTab.getD 0 0 := by
    simp [List.any_eq_true]
  refine ⟨?_, ?_, ?_, ?_⟩
  · rw [← hany]
    show (ebl_array_warns zTab z = _) ↔ _
    unfold ebl_array_warns
    by_cases h : z.any (fun x => decide (x < zTab.getD 0 0)) <;> simp [h]
  · rw [← hany]
    show (ebl_array_warns zTab z = _) ↔ _
    unfold ebl_array_warns
    by_cases h : z.any (fun x => decide (x < zTab.getD 0 0)) <;> simp [h]
  · cases zTab with
    | nil => exact absurd rfl hne
    | cons a rest =>
        intro y hy
        rcases List.mem_cons.mp hy with h | h
        · simp [h]
        · simpa using (List.sorted_cons.mp hsort).1 y h
  · intro i j hi hj
    exact ebl_core_entry _ _ _ _ _ hi hj

theorem claim4_witness :
    (ebl_array_full (Real.logb 10) (fun t => (10:ℝ) ^ t) (fun _ _ => 0)
        [1, 2] [0] [5]).1 = [PyWarning.runtimeWarning]
    ∧ (ebl_array_full (Real.logb 10) (fun t => (10:ℝ) ^ t) (fun _ _ => 0)
        [1, 2] [3] [5]).1 = [] := by
  have hne : ([1, 2] : List ℝ) ≠ [] := by simp
  have hs : List.Sorted (· ≤ ·) ([1, 2] : List ℝ) := by
    refine List.sorted_cons.mpr ⟨?_, List.sorted_singleton 2⟩
    intro b hb
    rw [List.mem_singleton.mp hb]
    exact one_le_two
  refine ⟨(claim4_below_domain_warning (fun _ _ => 0) [1, 2] [0] [5] hne hs).1.mpr
      ⟨0, by simp, by norm_num [List.getD]⟩,
    (claim4_below_domain_warning (fun _ _ => 0) [1, 2] [3] [5] hne hs).2.1.mpr ?_⟩
  norm_num [List.getD]

/-- C7: input promotion.  Scalar z, scalar lmu, and list z are promoted and
behave exactly like the corresponding array inputs, but a wavelength list
is left unconverted (line 308 stores the converted array in the unused
local ETeV), so the following lmu.shape[0] access raises AttributeError
instead of returning the grid the claim requires. -/
theorem claim7_promotion (spl : ℝ → ℝ → ℝ) (zTab z lmu : List ℝ) (x y : ℝ) :
    (ebl_array_py (Real.logb 10) (fun t => (10:ℝ) ^ t) spl zTab
        (PyObj.arr z) (PyObj.list lmu)).2 = Except.error PyErr.attributeError
    ∧ (ebl_array_py (Real.logb 10) (fun t => (10:ℝ) ^ t) spl zTab
        (PyObj.arr z) (PyObj.arr lmu)).2
        = Except.ok (ebl_core (Real.logb 10) (fun t => (10:ℝ) ^ t) spl z lmu)
    ∧ ebl_array_py (Real.logb 10) (fun t => (10:ℝ) ^ t) spl zTab
        (PyObj.float x) (PyObj.arr lmu)
        = ebl_array_py (Real.logb 10) (fun t => (10:ℝ) ^ t) spl zTab
          (PyObj.arr [x]) (PyObj.arr lmu)
    ∧ ebl_array_py (Real.logb 10) (fun t => (10:ℝ) ^ t) spl zTab
        (PyObj.list z) (PyObj.arr lmu)
        = ebl_array_py (Real.logb 10) (fun t => (10:ℝ) ^ t) spl zTab
          (PyObj.arr z) (PyObj.arr lmu)
    ∧ ebl_array_py (Real.logb 10) (fun t => (10:ℝ) ^ t) spl zTab
        (PyObj.arr z) (PyObj.float y)
        = ebl_array_py (Real.logb 10) (fun t => (10:ℝ) ^ t) spl zTab
          (PyObj.arr z) (PyObj.arr [y]) :=
  ⟨rfl, rfl, rfl, rfl, rfl⟩

/-- C8: for every (scalar) redshift, ebl_int produces a one-element array:
scipy simps applied to the (1, steps)-shaped integrand returns a
shape-(1,) ndarray, not the scalar float the docstring and spec promise.
The definition is pure, so the absence of side effects is inherent. -/
theorem claim8_one_element_array (S : List ℝ → List ℝ → ℝ) (spl : ℝ → ℝ → ℝ)
    (z lmin lmax : ℝ) (steps : ℕ) :
    (ebl_int S (Real.logb 10) (fun t => (10:ℝ) ^ t) Real.log spl
        z lmin lmax steps).length = 1 := by
  simp [ebl_int, List.length_map, ebl_core_length]

/-- C2: the abscissa array ebl_int passes to simps is the natural log of
LINEARLY spaced wavelengths (line 395), which differs from the natural log
of the log-uniformly spaced wavelengths at which the integrand is actually
sampled (lines 394/396) - already at lmin=1, lmax=100, steps=3 the middle
abscissa is ln(50.5) while the middle sample sits at wavelength 10.
Hence ebl_int is not the Simpson quadrature of samples paired with the log
of their own wavelengths, as the claim (and the spec) requires. -/
theorem claim2_abscissae_mismatch :
    ebl_int_lnl Real.log (1:ℝ) 100 3
      ≠ (ebl_int_samples (Real.logb 10) (fun t => (10:ℝ) ^ t)
          (1:ℝ) 100 3).map Real.log := by
  intro hEq
  have h1 : (ebl_int_lnl Real.log (1:ℝ) 100 3).getD 1 0
      = ((ebl_int_samples (Real.logb 10) (fun t => (10:ℝ) ^ t)
          (1:ℝ) 100 3).map Real.log).getD 1 0 := by rw [hEq]
  have hlogb100 : Real.logb 10 (100:ℝ) = 2 := by
    rw [show (100:ℝ) = (10:ℝ) ^ (2:ℝ) by
          rw [show (2:ℝ) = ((2:ℕ):ℝ) by norm_num, Real.rpow_natCast]; norm_num,
        Real.logb_rpow (by norm_num) (by norm_num)]
  have hL : (ebl_int_lnl Real.log (1:ℝ) 100 3).getD 1 0
      = Real.log (101 / 2) := by
    rw [ebl_int_lnl,
        getD_map Real.log (linspace (1:ℝ) 100 3)
          (by rw [linspace_length]; norm_num) 0 0,
        linspace_getD _ _ _ _ (by norm_num) 0]
    congr 1
    push_cast
    norm_num
  have hX : (linspace (Real.logb 10 (1:ℝ)) (Real.logb 10 (100:ℝ)) 3).getD 1 0
      = 1 := by
    rw [linspace_getD _ _ _ _ (by norm_num) 0, Real.logb_one, hlogb100]
    push_cast
    norm_num
  have hR : ((ebl_int_samples (Real.logb 10) (fun t => (10:ℝ) ^ t)
      (1:ℝ) 100 3).map Real.log).getD 1 0 = Real.log 10 := by
    rw [ebl_int_samples, ebl_int_logl,
        getD_map_map (fun t => (10:ℝ) ^ t) Real.log
          (linspace (Real.logb 10 (1:ℝ)) (Real.logb 10 (100:ℝ)) 3)
          (by rw [linspace_length]; norm_num) 0 0, hX, Real.rpow_one]
  rw [hL, hR] at h1
  exact absurd h1 (ne_of_gt (Real.log_lt_log (by norm_num) (by norm_num)))

/-- C5: every one of the three setters reads the attribute _loglnu, which
the constructor never creates (it stores _loglmu), so on any freshly
constructed interpolator each setter raises AttributeError instead of
returning normally, and the stored spline is never refit. -/
theorem claim5_setters_raise
    (fit : List ℝ → List ℝ → List (List ℝ) → ℝ → ℝ → ℝ)
    (z lmu : List ℝ) (nuInu : List (List ℝ))
    (znew lmunew : List ℝ) (nunew : List (List ℝ)) :
    (z_setter fit (EBL_init (Real.logb 10) fit z lmu nuInu) znew).2
        = Except.error PyErr.attributeError
    ∧ (loglmu_setter (Real.logb 10) fit
        (EBL_init (Real.logb 10) fit z lmu nuInu) lmunew).2
        = Except.error PyErr.attributeError
    ∧ (nuInu_setter (Real.logb 10) fit
        (EBL_init (Real.logb 10) fit z lmu nuInu) nunew).2
        = Except.error PyErr.attributeError
    ∧ pyGet (z_setter fit (EBL_init (Real.logb 10) fit z lmu nuInu) znew).1
        "_EBL__eblSpline"
        = pyGet (EBL_init (Real.logb 10) fit z lmu nuInu) "_EBL__eblSpline"
    ∧ pyGet (loglmu_setter (Real.logb 10) fit
        (EBL_init (Real.logb 10) fit z lmu nuInu) lmunew).1 "_EBL__eblSpline"
        = pyGet (EBL_init (Real.logb 10) fit z lmu nuInu) "_EBL__eblSpline"
    ∧ pyGet (nuInu_setter (Real.logb 10) fit
        (EBL_init (Real.logb 10) fit z lmu nuInu) nunew).1 "_EBL__eblSpline"
        = pyGet (EBL_init (Real.logb 10) fit z lmu nuInu) "_EBL__eblSpline" :=
  ⟨rfl, rfl, rfl, rfl, rfl, rfl⟩

/-- C10: the accessors expose the log-scale internal storage: after
construction the nuInu property returns log10 of the grid passed in and
the loglmu property returns log10 of the wavelengths passed in; writing a
linear grid through the nuInu setter stores its log10, so reading back
does not return the value written (no linear round trip). -/
theorem claim10_log_scale_storage
    (fit : List ℝ → List ℝ → List (List ℝ) → ℝ → ℝ → ℝ)
    (z lmu : List ℝ) (nuInu x : List (List ℝ)) :
    nuInu_prop (EBL_init (Real.logb 10) fit z lmu nuInu)
        = some (PyAttr.mat (nuInu.map (fun r => r.map (Real.logb 10))))
    ∧ loglmu_prop (EBL_init (Real.logb 10) fit z lmu nuInu)
        = some (PyAttr.vec (lmu.map (Real.logb 10)))
    ∧ nuInu_prop (nuInu_setter (Real.logb 10) fit
        (EBL_init (Real.logb 10) fit z lmu nuInu) x).1
        = some (PyAttr.mat (x.map (fun r => r.map (Real.logb 10))))
    ∧ nuInu_prop (nuInu_setter (Real.logb 10) fit
        (EBL_init (Real.logb 10) fit z lmu nuInu) [[10]]).1
        ≠ some (PyAttr.mat [[10]]) := by
  refine ⟨rfl, rfl, rfl, ?_⟩
  rw [show nuInu_prop (nuInu_setter (Real.logb 10) fit
      (EBL_init (Real.logb 10) fit z lmu nuInu) [[10]]).1
      = some (PyAttr.mat [[Real.logb 10 10]]) from rfl]
  intro h
  have h1 := PyAttr.mat.inj (Option.some.inj h)
  have h2 : Real.logb 10 10 = 10 := by
    have h3 := congrArg (fun l : List (List ℝ) => (l.getD 0 []).getD 0 0) h1
    simp at h3
  rw [Real.logb_self_eq_one (by norm_num)] at h2
  norm_num at h2

theorem map_zip_entry {α : Type} [LinearOrderedField α] (rows : List (List α))
    (eJ : List α) (g : α × α → α) (h : α → α) {i j : ℕ}
    (hi : i < rows.length) (hjr : j < (rows.getD i []).length)
    (hje : j < eJ.length) :
    (((rows.map (fun row => (row.zip eJ).map g)).map
        (fun row => row.map h)).getD i []).getD j 0
      = h (g ((rows.getD i []).getD j 0, eJ.getD j 0)) := by
  rw [getD_map_map (fun row => (row.zip eJ).map g) (fun row => row.map h)
        rows hi [] []]
  rw [getD_map_map g h ((rows.getD i []).zip eJ)
        (by rw [List.length_zip]; exact lt_min hjr hje) 0 (0, 0)]
  rw [getD_zip _ _ hjr hje 0 0]

theorem n_array_entry {α : Type} [LinearOrderedField α] (log10 pow10 : α → α)
    (pi : α) (spl : α → α → α) (z EeV : List α) {i j : ℕ}
    (hi : i < z.length) (hj : j < EeV.length) :
    ((n_array log10 pow10 pi spl z EeV).getD i []).getD j 0
      = 4 * pi / const_c / (EeV.getD j 0 * const_e) ^ 2
          * (((ebl_core log10 pow10 spl z
              (EeV.map (fun E => const_h * const_c / (E * const_e) * 10 ^ 6))).getD
                i []).getD j 0)
          * (1 / 10 ^ 9) * const_e * (1 / 10 ^ 6) := by
  have hcore : i < (ebl_core log10 pow10 spl z
      (EeV.map (fun E => const_h * const_c / (E * const_e) * 10 ^ 6))).length := by
    rw [ebl_core_length]; exact hi
  have hjr : j < ((ebl_core log10 pow10 spl z
      (EeV.map (fun E => const_h * const_c / (E * const_e) * 10 ^ 6))).getD
        i []).length := by
    rw [ebl_core_row_length _ _ _ _ _ hi, List.length_map]; exact hj
  have hje : j < (EeV.map (fun E => E * const_e)).length := by
    rw [List.length_map]; exact hj
  have h1 := map_zip_entry (ebl_core log10 pow10 spl z
      (EeV.map (fun E => const_h * const_c / (E * const_e) * 10 ^ 6)))
    (EeV.map (fun E => E * const_e))
    (fun pr => 4 * pi / const_c / pr.2 ^ 2 * pr.1 * (1 / 10 ^ 9))
    (fun v => v * const_e * (1 / 10 ^ 6)) hcore hjr hje
  rw [getD_map (fun E => E * const_e) EeV hj 0 0] at h1
  exact h1

/-- C3: n_array is exactly the composition demanded by the spec: each
energy E (eV) is converted to the wavelength h*c/E_J (expressed in
microns) and to joules E_J = E*e, ebl_array is queried at those
wavelengths, and the intensity is scaled by 4*pi/(c*E_J^2) together with
the unit factors 1e-9 (nW to W), 1e-6 (per m^3 to per cm^3) and the
elementary charge (per J to per eV). -/
theorem claim3_n_array_composition (spl : ℝ → ℝ → ℝ) (z EeV : List ℝ)
    {i j : ℕ} (hi : i < z.length) (hj : j < EeV.length) :
    ((n_array (Real.logb 10) (fun t => (10:ℝ) ^ t) Real.pi spl z EeV).getD
        i []).getD j 0
      = 4 * Real.pi / (const_c * (EeV.getD j 0 * const_e) ^ 2)
          * (((ebl_core (Real.logb 10) (fun t => (10:ℝ) ^ t) spl z
              (EeV.map (fun E => const_h * const_c / (E * const_e) * 10 ^ 6))).getD
                i []).getD j 0)
          * (1 / 10 ^ 9) * (1 / 10 ^ 6) * const_e := by
  rw [n_array_entry (Real.logb 10) (fun t => (10:ℝ) ^ t) Real.pi spl z EeV hi hj]
  ring

theorem claim3_witness :
    ((n_array (Real.logb 10) (fun t => (10:ℝ) ^ t) Real.pi (fun _ _ => 0)
        [0] [1]).getD 0 []).getD 0 0
      = 4 * Real.pi / (const_c * (([1] : List ℝ).getD 0 0 * const_e) ^ 2)
          * (((ebl_core (Real.logb 10) (fun t => (10:ℝ) ^ t) (fun _ _ => 0) [0]
              (([1] : List ℝ).map
                (fun E => const_h * const_c / (E * const_e) * 10 ^ 6))).getD
                0 []).getD 0 0)
          * (1 / 10 ^ 9) * (1 / 10 ^ 6) * const_e :=
  claim3_n_array_composition (fun _ _ => 0) [0] [1] (by decide) (by decide)

/-- C9: every recognized model name containing "inoue" makes readmodel
raise ValueError instead of returning an interpolator, and any
unrecognized model name makes it raise ValueError immediately (before any
data is consulted); there is no retry or fallback. -/
theorem claim9_model_rejection {α : Type} [LinearOrderedField α]
    (log10 : α → α) (fit : List α → List α → List (List α) → α → α → α)
    (load : String → List (List α)) (model : String)
    (hm : model ∉ ["kneiske", "franceschini", "dominguez", "dominguez-upper",
        "dominguez-lower", "inoue", "inoue-low-pop3", "inoue-up-pop3",
        "gilmore", "gilmore-fixed", "cuba", "finke"]) :
    readmodel log10 fit load "inoue"
        = Except.error "Inoue models not correctly implemented at the moment, choose another model"
    ∧ readmodel log10 fit load "inoue-low-pop3"
        = Except.error "Inoue models not correctly implemented at the moment, choose another model"
    ∧ readmodel log10 fit load "inoue-up-pop3"
        = Except.error "Inoue models not correctly implemented at the moment, choose another model"
    ∧ readmodel log10 fit load model = Except.error "Unknown EBL model chosen!" := by
  refine ⟨rfl, rfl, rfl, ?_⟩
  simp only [List.mem_cons, List.mem_singleton, not_or] at hm
  obtain ⟨h1, h2, h3, h4, h5, h6, h7, h8, h9, h10, h11, h12, -⟩ := hm
  have hfn : readmodel_filename model = Except.error "Unknown EBL model chosen!" := by
    unfold readmodel_filename
    rw [if_neg h1, if_neg h2, if_neg h3, if_neg h4, if_neg h5, if_neg h6,
        if_neg h7, if_neg h8, if_neg h9, if_neg h10, if_neg h11, if_neg h12]
  unfold readmodel
  rw [hfn]
  rfl

theorem claim9_witness :
    readmodel (fun x : ℚ => x) (fun _ _ _ _ _ => 0) (fun _ => []) "planck"
      = Except.error "Unknown EBL model chosen!" :=
  (claim9_model_rejection (fun x : ℚ => x) (fun _ _ _ _ _ => 0) (fun _ => [])
    "planck" (by decide)).2.2.2

end Claims

end Ebltable
